import Mathlib

/-!
Shallow embedding of the coordinate-conversion core of the magneticfield
repository (src/main.py and src/main2.py).

Python floats are modelled as exact rationals (`ℚ`); Python `raise` is
modelled with `Except`; the external collaborators (pyproj's transform,
the HTTP layer and the JSON body parse) are abstract parameters, so the
theorems quantify over every possible behaviour of those collaborators.
-/

namespace MagneticField

/-- src/main.py lines 10-12 (identical in src/main2.py lines 5-7):
`dms_to_decimal(degrees, minutes, seconds)` returns
`degrees + (minutes / 60.0) + (seconds / 3600.0)`. -/
def dms_to_decimal (degrees minutes seconds : ℚ) : ℚ :=
  degrees + (minutes / 60) + (seconds / 3600)

/-- src/main.py lines 109-112: the latitude decimal produced by `main` from the
DMS fields and the direction selectbox: `dms_to_decimal` then negation when
the direction is `"S"`. -/
def lat_decimal_of (deg mins secs : ℚ) (dir : String) : ℚ :=
  let v := dms_to_decimal deg mins secs
  if dir = "S" then -v else v

/-- src/main.py lines 114-116: the longitude decimal produced by `main`:
`dms_to_decimal` then negation when the direction is `"W"`. -/
def lon_decimal_of (deg mins secs : ℚ) (dir : String) : ℚ :=
  let v := dms_to_decimal deg mins secs
  if dir = "W" then -v else v

/-- Python's built-in `abs` on a number. -/
def py_abs (q : ℚ) : ℚ := if q < 0 then -q else q

/-- Model of Python's `f"{x:.6f}"` fixed-point rendering over exact
rationals: round to the nearest multiple of 10⁻⁶ (half away from the
floor; no input below exercises a tie) and print with exactly six
fractional digits. -/
def fmt6 (q : ℚ) : String :=
  let n : ℤ := ⌊q * 1000000 + 1 / 2⌋
  let m : ℕ := n.natAbs
  let ip : ℕ := m / 1000000
  let fp : ℕ := m % 1000000
  let fps : String := toString fp
  let pad : String := String.mk (List.replicate (6 - fps.length) '0')
  (if n < 0 then "-" else "") ++ toString ip ++ "." ++ pad ++ fps

/-- src/main.py lines 15-19: `format_lat_lon(lat, lon)` returns
`(f"{abs(lat):.6f}° {lat_dir}", f"{abs(lon):.6f}° {lon_dir}")` with
`lat_dir = "N" if lat >= 0 else "S"` and `lon_dir = "E" if lon >= 0 else "W"`. -/
def format_lat_lon (lat lon : ℚ) : String × String :=
  let lat_dir : String := if 0 ≤ lat then "N" else "S"
  let lon_dir : String := if 0 ≤ lon then "E" else "W"
  (fmt6 (py_abs lat) ++ "° " ++ lat_dir, fmt6 (py_abs lon) ++ "° " ++ lon_dir)

/-- The message of the ValueError raised by `get_epsg` (src/main.py line 28). -/
def invalid_zone_msg : String :=
  "Zona inválida. Escolha uma zona entre 18 e 25 no hemisfério sul."

/-- src/main.py lines 22-28: `get_epsg(zone)` returns `31978 + (zone - 18)`
when `18 <= zone <= 25` and raises a ValueError otherwise. -/
def get_epsg (zone : ℤ) : Except String ℤ :=
  let base_epsg : ℤ := 31978
  if 18 ≤ zone ∧ zone ≤ 25 then .ok (base_epsg + (zone - 18))
  else .error invalid_zone_msg

/-- The arguments `pyproj.Transformer.from_crs` is called with in
src/main.py line 34: source projected system, target geographic system,
and the `always_xy` axis-order flag. -/
structure Transformer where
  src_epsg : ℤ
  dst_epsg : ℤ
  always_xy : Bool

/-- `Transformer.from_crs(src, dst, always_xy)`. -/
def Transformer.from_crs (src dst : ℤ) (axy : Bool) : Transformer :=
  ⟨src, dst, axy⟩

/-- src/main.py lines 31-36: `utm_to_latlon(northing, easting, zone)` resolves
the EPSG code, builds `Transformer.from_crs(f"EPSG:{code}", "EPSG:4674",
always_xy=True)`, applies it as `lon, lat = transformer.transform(easting,
northing)` and returns `(lat, lon)`. The external pyproj transform semantics
is the abstract parameter `pyproj`, returning the `(lon, lat)` pair. -/
def utm_to_latlon (pyproj : Transformer → ℚ → ℚ → ℚ × ℚ)
    (northing easting : ℚ) (zone : ℤ) : Except String (ℚ × ℚ) :=
  match get_epsg zone with
  | .error e => .error e
  | .ok epsg_code =>
      let transformer := Transformer.from_crs epsg_code 4674 true
      let p := pyproj transformer easting northing
      .ok (p.2, p.1)

/-- A JSON value, as produced by `response.json()`. -/
inductive Json where
  | null
  | bool (b : Bool)
  | num (q : ℚ)
  | str (s : String)
  | arr (elems : List Json)
  | obj (fields : List (String × Json))

/-- Python truthiness of a JSON value (`if results and ...`). -/
def Json.truthy : Json → Bool
  | .null => false
  | .bool b => b
  | .num q => q != 0
  | .str s => !(s == "")
  | .arr elems => !elems.isEmpty
  | .obj fields => !fields.isEmpty

/-- Whether `needle` occurs as a substring of `hay` (Python `in` on strings). -/
def substr_of (needle hay : String) : Bool :=
  needle == "" || (hay.splitOn needle).length != 1

/-- Does the JSON value equal the Python string `k`? -/
def Json.is_str (j : Json) (k : String) : Bool :=
  match j with
  | .str s => s == k
  | _ => false

/-- Python `k in j` for a JSON value `j`: key membership for a dict,
element membership for a list, substring for a string, `TypeError`
otherwise. -/
def Json.py_contains (j : Json) (k : String) : Except String Bool :=
  match j with
  | .obj fields => .ok (fields.any (fun p => p.1 == k))
  | .arr elems => .ok (elems.any (fun x => Json.is_str x k))
  | .str s => .ok (substr_of k s)
  | _ => .error "TypeError"

/-- Python `j[k]` for a string key `k`: dict lookup (`KeyError` when the
key is absent), `TypeError` on any non-dict. -/
def Json.py_get_key (j : Json) (k : String) : Except String Json :=
  match j with
  | .obj fields =>
      match fields.find? (fun p => p.1 == k) with
      | some p => .ok p.2
      | none => .error "KeyError"
  | _ => .error "TypeError"

/-- Python `j[0]`: head of a list (`IndexError` when empty), first
character of a string, `KeyError` on a dict with string keys,
`TypeError` otherwise. -/
def Json.py_get_zero (j : Json) : Except String Json :=
  match j with
  | .arr [] => .error "IndexError"
  | .arr (x :: _) => .ok x
  | .str s => if s.isEmpty then .error "IndexError" else .ok (.str (s.take 1))
  | .obj _ => .error "KeyError"
  | _ => .error "TypeError"

/-- Python `f"{j:.2f}"` coercion: numbers format, booleans are ints,
anything else raises. -/
def Json.py_float (j : Json) : Except String ℚ :=
  match j with
  | .num q => .ok q
  | .bool b => .ok (if b then 1 else 0)
  | _ => .error "TypeError"

/-- src/main.py lines 151-155: `result_data = results["result"][0]` and the
three field accesses `result_data['declination']`, `['inclination']`,
`['totalintensity']` used in the displayed metrics, each a possible
uncaught Python exception. -/
def fetch_first_result (j : Json) : Except String (ℚ × ℚ × ℚ) := do
  let r ← j.py_get_key "result"
  let x ← r.py_get_zero
  let d ← (← x.py_get_key "declination").py_float
  let i ← (← x.py_get_key "inclination").py_float
  let t ← (← x.py_get_key "totalintensity").py_float
  .ok (d, i, t)

/-- Outcome of the result-display step of `main`. -/
inductive DisplayOutcome where
  | skipped
  | shown (decl incl total : ℚ)
  | crashed (msg : String)

/-- src/main.py lines 148-155: `results` is `None` or the parsed JSON;
`if results and "result" in results:` guards the block that reads
`results["result"][0]` and displays the three metrics. A false guard
silently displays nothing; an exception inside the block is uncaught. -/
def display_results (results : Option Json) : DisplayOutcome :=
  match results with
  | none => .skipped
  | some j =>
      if j.truthy then
        match j.py_contains "result" with
        | .error e => .crashed e
        | .ok false => .skipped
        | .ok true =>
            match fetch_first_result j with
            | .ok (d, i, t) => .shown d i t
            | .error e => .crashed e
      else .skipped

/-- The observable result of one `requests.get` call: a transport-level
failure carrying its cause, or an HTTP response with a status code and a
body text. -/
inductive HttpResult where
  | transport_failure (cause : String)
  | response (status : Nat) (body : String)

/-- What `get_magnetic_field` produces for its caller: the parsed JSON
body, or `None` after reporting the error via `st.error` (the error
message shown is the carried cause). -/
inductive QueryOutcome where
  | ok (j : Json)
  | network_error (cause : String)

/-- src/main.py lines 39-62 (src/main2.py lines 31-52 behaves the same
here): one `requests.get` (the head of the abstract network behaviour
`net`), `response.raise_for_status()` turning a 4xx/5xx status into an
exception, then `response.json()` (the abstract body parse `parse_json`;
its failure is a `requests` exception as well). Every
`requests.exceptions.RequestException` is caught, reported with its
cause, and `None` is returned. -/
def get_magnetic_field (parse_json : String → Option Json)
    (net : Nat → HttpResult) : QueryOutcome :=
  match net 0 with
  | .transport_failure c => .network_error c
  | .response status body =>
      if 400 ≤ status ∧ status < 600 then
        .network_error ("HTTPError " ++ toString status)
      else
        match parse_json body with
        | some j => .ok j
        | none => .network_error "JSONDecodeError"

/-- A concrete pyproj behaviour used to witness that `utm_to_latlon`
feeds the constructed transformer and the `(easting, northing)` pair to
the external transform. -/
def sample_pyproj (t : Transformer) (x y : ℚ) : ℚ × ℚ :=
  (x + y + (t.src_epsg : ℚ), x - y)

/-- A network behaviour that refuses every connection. -/
def refused_net : Nat → HttpResult :=
  fun _ => .transport_failure "ConnectionError"

/-- A body parse that never succeeds. -/
def no_parse : String → Option Json :=
  fun _ => none

/-- Claim C1: `get_epsg` returns `31978 + (zone - 18)` exactly for
`18 ≤ zone ≤ 25` and raises the ValueError exactly for zones outside that
range; in particular zone 18 maps to the base code, zone 25 to base + 7,
and zones 17 and 26 fail. -/
theorem get_epsg_zone_mapping (zone : ℤ) :
    (18 ≤ zone ∧ zone ≤ 25 → get_epsg zone = .ok (31978 + (zone - 18))) ∧
    (zone < 18 ∨ 25 < zone → get_epsg zone = .error invalid_zone_msg) ∧
    get_epsg 18 = .ok 31978 ∧ get_epsg 25 = .ok (31978 + 7) ∧
    get_epsg 17 = .error invalid_zone_msg ∧
    get_epsg 26 = .error invalid_zone_msg := by
  refine ⟨fun h => ?_, fun h => ?_, rfl, rfl, rfl, rfl⟩
  · simp [get_epsg, h.1, h.2]
  · have hn : ¬(18 ≤ zone ∧ zone ≤ 25) := by omega
    simp [get_epsg, hn]

/-- Witness for C1 at zones 23 and 30. -/
theorem get_epsg_zone_mapping_witness :
    get_epsg 23 = .ok (31978 + (23 - 18)) ∧
    get_epsg 30 = .error invalid_zone_msg :=
  ⟨(get_epsg_zone_mapping 23).1 (by decide),
   (get_epsg_zone_mapping 30).2.1 (by decide)⟩

/-- Claim C2: `dms_to_decimal` returns exactly
`degrees + minutes/60 + seconds/3600` with no rounding, and the sign is
applied only afterwards by the caller: negated for direction `"S"`/`"W"`,
unchanged for `"N"`/`"E"`. -/
theorem dms_to_decimal_exact (d m s : ℚ) :
    dms_to_decimal d m s = d + m / 60 + s / 3600 ∧
    lat_decimal_of d m s "S" = -(dms_to_decimal d m s) ∧
    lat_decimal_of d m s "N" = dms_to_decimal d m s ∧
    lon_decimal_of d m s "W" = -(dms_to_decimal d m s) ∧
    lon_decimal_of d m s "E" = dms_to_decimal d m s := by
  refine ⟨rfl, ?_, ?_, ?_, ?_⟩ <;> simp [lat_decimal_of, lon_decimal_of]

/-- Claim C8: on valid inputs, `dms_to_decimal` is strictly monotone in
each of its three components independently. -/
theorem dms_to_decimal_monotone (d d2 m m2 s s2 : ℚ)
    (hm : 0 ≤ m) (hm59 : m ≤ 59) (hm2 : 0 ≤ m2) (hm259 : m2 ≤ 59)
    (hs : 0 ≤ s) (hs60 : s < 60) (hs2 : 0 ≤ s2) (hs260 : s2 < 60) :
    (d < d2 → dms_to_decimal d m s < dms_to_decimal d2 m s) ∧
    (m < m2 → dms_to_decimal d m s < dms_to_decimal d m2 s) ∧
    (s < s2 → dms_to_decimal d m s < dms_to_decimal d m s2) := by
  unfold dms_to_decimal
  refine ⟨fun h => by linarith, fun h => by linarith, fun h => by linarith⟩

/-- Witness for C8 at `(1,0,0)` against `(2,0,0)`, `(1,1,0)`, `(1,0,1)`. -/
theorem dms_to_decimal_monotone_witness :
    dms_to_decimal 1 0 0 < dms_to_decimal 2 0 0 ∧
    dms_to_decimal 1 0 0 < dms_to_decimal 1 1 0 ∧
    dms_to_decimal 1 0 0 < dms_to_decimal 1 0 1 :=
  ⟨(dms_to_decimal_monotone 1 2 0 1 0 1 (by norm_num) (by norm_num) (by norm_num)
      (by norm_num) (by norm_num) (by norm_num) (by norm_num) (by norm_num)).1 (by norm_num),
   (dms_to_decimal_monotone 1 2 0 1 0 1 (by norm_num) (by norm_num) (by norm_num)
      (by norm_num) (by norm_num) (by norm_num) (by norm_num) (by norm_num)).2.1 (by norm_num),
   (dms_to_decimal_monotone 1 2 0 1 0 1 (by norm_num) (by norm_num) (by norm_num)
      (by norm_num) (by norm_num) (by norm_num) (by norm_num) (by norm_num)).2.2 (by norm_num)⟩

/-- Claim C10: for minutes in `[0,59]` and seconds in `[0,60)`, the result
of `dms_to_decimal degrees minutes seconds` lies in `[degrees, degrees + 1)`. -/
theorem dms_to_decimal_bracket (d m s : ℚ)
    (hm : 0 ≤ m) (hm59 : m ≤ 59) (hs : 0 ≤ s) (hs60 : s < 60) :
    d ≤ dms_to_decimal d m s ∧ dms_to_decimal d m s < d + 1 := by
  unfold dms_to_decimal
  constructor <;> linarith

/-- Witness for C10 at `(-5, 59, 59.9)`. -/
theorem dms_to_decimal_bracket_witness :
    (-5 : ℚ) ≤ dms_to_decimal (-5) 59 (599 / 10) ∧
    dms_to_decimal (-5) 59 (599 / 10) < -5 + 1 :=
  dms_to_decimal_bracket (-5) 59 (599 / 10)
    (by norm_num) (by norm_num) (by norm_num) (by norm_num)

theorem lat_decimal_S (d m s : ℚ) :
    lat_decimal_of d m s "S" = -(dms_to_decimal d m s) := by
  simp [lat_decimal_of]

theorem lat_decimal_N (d m s : ℚ) :
    lat_decimal_of d m s "N" = dms_to_decimal d m s := by
  simp [lat_decimal_of]

theorem lon_decimal_W (d m s : ℚ) :
    lon_decimal_of d m s "W" = -(dms_to_decimal d m s) := by
  simp [lon_decimal_of]

theorem lon_decimal_E (d m s : ℚ) :
    lon_decimal_of d m s "E" = dms_to_decimal d m s := by
  simp [lon_decimal_of]

theorem py_abs_of_neg {q : ℚ} (h : q < 0) : py_abs q = -q := by
  simp only [py_abs]
  rw [if_pos h]

theorem py_abs_of_nonneg {q : ℚ} (h : 0 ≤ q) : py_abs q = q := by
  simp only [py_abs]
  rw [if_neg (not_lt.mpr h)]

theorem py_abs_eq_abs (q : ℚ) : py_abs q = |q| := by
  rcases lt_or_le q 0 with h | h
  · rw [py_abs_of_neg h, abs_of_neg h]
  · rw [py_abs_of_nonneg h, abs_of_nonneg h]

theorem fmt6_of_floor (q : ℚ) (n : ℤ) (h : ⌊q * 1000000 + 1 / 2⌋ = n) :
    fmt6 q = (if n < 0 then "-" else "") ++ toString (n.natAbs / 1000000) ++ "." ++
      String.mk (List.replicate (6 - (toString (n.natAbs % 1000000)).length) '0') ++
      toString (n.natAbs % 1000000) := by
  simp only [fmt6, h]

/-- Claim C3: for a zone in `[18,25]`, `utm_to_latlon` builds the transform
from the zone's EPSG code to EPSG:4674 with `always_xy=True`, applies it to
`(easting, northing)` in that order, and returns the swapped pair
`(lat, lon)`; for a zone outside `[18,25]` it raises the zone ValueError,
and the external transform is never consulted (the outcome is the same
under every possible transform behaviour). -/
theorem utm_to_latlon_spec (pyproj : Transformer → ℚ → ℚ → ℚ × ℚ)
    (northing easting : ℚ) (zone : ℤ) :
    (18 ≤ zone ∧ zone ≤ 25 →
      utm_to_latlon pyproj northing easting zone =
        .ok ((pyproj (Transformer.from_crs (31978 + (zone - 18)) 4674 true) easting northing).2,
             (pyproj (Transformer.from_crs (31978 + (zone - 18)) 4674 true) easting northing).1)) ∧
    (zone < 18 ∨ 25 < zone →
      utm_to_latlon pyproj northing easting zone = .error invalid_zone_msg ∧
      ∀ pyproj2 : Transformer → ℚ → ℚ → ℚ × ℚ,
        utm_to_latlon pyproj2 northing easting zone =
          utm_to_latlon pyproj northing easting zone) := by
  constructor
  · intro h
    simp only [utm_to_latlon, get_epsg]
    rw [if_pos h]
  · intro h
    have hn : ¬(18 ≤ zone ∧ zone ≤ 25) := by omega
    refine ⟨?_, fun pyproj2 => ?_⟩
    · simp only [utm_to_latlon, get_epsg]
      rw [if_neg hn]
    · simp only [utm_to_latlon, get_epsg]
      rw [if_neg hn]

/-- Witness for C3 at zone 20 (transform applied to `(easting, northing)`
with the zone's code) and zone 17 (failure, transform irrelevant). -/
theorem utm_to_latlon_spec_witness :
    utm_to_latlon sample_pyproj 2 3 20 =
      .ok ((3 : ℚ) - 2, (3 : ℚ) + 2 + ((31978 + (20 - 18) : ℤ) : ℚ)) ∧
    utm_to_latlon sample_pyproj 2 3 17 = .error invalid_zone_msg := by
  constructor
  · rw [(utm_to_latlon_spec sample_pyproj 2 3 20).1 ⟨by decide, by decide⟩]
    rfl
  · exact ((utm_to_latlon_spec sample_pyproj 2 3 17).2 (Or.inl (by decide))).1

/-- Claim C4 counterexample: a successful response whose first result
object lacks the `inclination` field makes the display step raise an
uncaught KeyError (an unhandled crash), not a reported ParseError. -/
theorem display_missing_field_crash :
    display_results (some (.obj [("result",
      .arr [.obj [("declination", .num (-43 / 2))]])])) = .crashed "KeyError" := rfl

/-- Claim C4 as amended: on a successful response the first element of the
`result` array is taken as canonical and its three fields are displayed;
but a missing `result` key (or a falsy body) silently skips the display
with no error reported, and an empty `result` array or a missing member
field raises an uncaught IndexError/KeyError rather than surfacing a
reported ParseError. -/
theorem display_results_behaviour :
    display_results none = .skipped ∧
    (∀ fields : List (String × Json),
      fields.any (fun p => p.1 == "result") = false →
      Json.truthy (.obj fields) = true →
      display_results (some (.obj fields)) = .skipped) ∧
    (∀ (d i t : ℚ) (rest : List Json),
      display_results (some (.obj [("result", .arr (.obj [("declination", .num d),
        ("inclination", .num i), ("totalintensity", .num t)] :: rest))])) = .shown d i t) ∧
    display_results (some (.obj [("result", .arr [])])) = .crashed "IndexError" ∧
    display_results (some (.obj [("result", .arr [.obj [("declination", .num 0)]])])) =
      .crashed "KeyError" := by
  refine ⟨rfl, ?_, fun d i t rest => rfl, rfl, rfl⟩
  intro fields h ht
  simp [display_results, Json.py_contains, h, ht]

/-- Witness for C4's amended statement: a body without a `result` key is
silently skipped; a well-formed body displays the first result's fields. -/
theorem display_results_behaviour_witness :
    display_results (some (.obj [("x", .num 1)])) = .skipped ∧
    display_results (some (.obj [("result", .arr [.obj [("declination", .num 1),
      ("inclination", .num 2), ("totalintensity", .num 3)]])])) = .shown 1 2 3 :=
  ⟨display_results_behaviour.2.1 [("x", Json.num 1)] rfl rfl,
   display_results_behaviour.2.2.1 1 2 3 []⟩

/-- Claim C5: each coordinate is rendered as its absolute value in
six-decimal fixed point, a degree symbol, and the direction letter, which
is `N`/`E` exactly when the value is ≥ 0 (zero included) and `S`/`W`
otherwise; `py_abs` agrees with the mathematical absolute value. -/
theorem format_lat_lon_spec (lat lon : ℚ) :
    py_abs lat = |lat| ∧ py_abs lon = |lon| ∧
    (0 ≤ lat → (format_lat_lon lat lon).1 = fmt6 (py_abs lat) ++ "° " ++ "N") ∧
    (lat < 0 → (format_lat_lon lat lon).1 = fmt6 (py_abs lat) ++ "° " ++ "S") ∧
    (0 ≤ lon → (format_lat_lon lat lon).2 = fmt6 (py_abs lon) ++ "° " ++ "E") ∧
    (lon < 0 → (format_lat_lon lat lon).2 = fmt6 (py_abs lon) ++ "° " ++ "W") := by
  refine ⟨py_abs_eq_abs lat, py_abs_eq_abs lon,
    fun h => ?_, fun h => ?_, fun h => ?_, fun h => ?_⟩
  · simp [format_lat_lon, h]
  · simp [format_lat_lon, not_le.mpr h]
  · simp [format_lat_lon, h]
  · simp [format_lat_lon, not_le.mpr h]

/-- Witness for C5 at `lat = 1`, `lon = -2`, covering both direction
branches with the rendered strings fully evaluated. -/
theorem format_lat_lon_spec_witness :
    (format_lat_lon 1 (-2)).1 = "1.000000° N" ∧
    (format_lat_lon 1 (-2)).2 = "2.000000° W" := by
  constructor
  · rw [(format_lat_lon_spec 1 (-2)).2.2.1 (by norm_num)]
    rw [py_abs_of_nonneg (by norm_num : (0:ℚ) ≤ 1)]
    rw [fmt6_of_floor 1 1000000 (by norm_num)]
    rfl
  · rw [(format_lat_lon_spec 1 (-2)).2.2.2.2.2 (by norm_num)]
    rw [py_abs_of_neg (by norm_num : (-2 : ℚ) < 0)]
    rw [fmt6_of_floor (-(-2)) 2000000 (by norm_num)]
    rfl

/-- Claim C6 counterexample: the interface accepts latitude degrees in
`[-90, 90]`; with degrees `-24`, minutes `33`, seconds `35.3454` (all in
the accepted ranges) and hemisphere flag `S`, the produced decimal is
strictly positive, violating the claimed sign invariant. -/
theorem sign_invariant_counterexample :
    ((-90 : ℚ) ≤ -24 ∧ (-24 : ℚ) ≤ 90 ∧ (0 : ℚ) ≤ 33 ∧ (33 : ℚ) ≤ 59 ∧
      (0 : ℚ) ≤ 353454 / 10000 ∧ (353454 / 10000 : ℚ) < 60) ∧
    0 < lat_decimal_of (-24) 33 (353454 / 10000) "S" := by
  refine ⟨⟨by norm_num, by norm_num, by norm_num, by norm_num, by norm_num, by norm_num⟩, ?_⟩
  simp only [lat_decimal_of, dms_to_decimal, if_true]
  norm_num

/-- Claim C6 as amended: for non-negative degrees (with non-negative
minutes and seconds), the decimal produced after sign application is ≤ 0
for flag `S`/`W` and ≥ 0 for flag `N`/`E`. -/
theorem sign_matches_flag (d m s : ℚ) (hd : 0 ≤ d) (hm : 0 ≤ m) (hs : 0 ≤ s) :
    lat_decimal_of d m s "S" ≤ 0 ∧ 0 ≤ lat_decimal_of d m s "N" ∧
    lon_decimal_of d m s "W" ≤ 0 ∧ 0 ≤ lon_decimal_of d m s "E" := by
  have h60 : (0 : ℚ) ≤ m / 60 := div_nonneg hm (by norm_num)
  have h3600 : (0 : ℚ) ≤ s / 3600 := div_nonneg hs (by norm_num)
  have hv : 0 ≤ dms_to_decimal d m s := by
    unfold dms_to_decimal
    linarith
  rw [lat_decimal_S, lat_decimal_N, lon_decimal_W, lon_decimal_E]
  refine ⟨by linarith, by linarith, by linarith, by linarith⟩

/-- Witness for C6's amended statement at `(24, 33, 35.3454)`. -/
theorem sign_matches_flag_witness :
    lat_decimal_of 24 33 (353454 / 10000) "S" ≤ 0 ∧
    0 ≤ lat_decimal_of 24 33 (353454 / 10000) "N" ∧
    lon_decimal_of 24 33 (353454 / 10000) "W" ≤ 0 ∧
    0 ≤ lon_decimal_of 24 33 (353454 / 10000) "E" :=
  sign_matches_flag 24 33 (353454 / 10000) (by norm_num) (by norm_num) (by norm_num)

/-- Claim C7: on a transport failure, or on a 4xx/5xx status, the client
reports the underlying cause and produces no result; the failed response
body is never parsed (the outcome is the same under every possible parse
behaviour), and exactly one request is issued (the outcome depends only
on the first network interaction). -/
theorem get_magnetic_field_network_error (parse_json : String → Option Json)
    (net : Nat → HttpResult) :
    (∀ net2 : Nat → HttpResult, net2 0 = net 0 →
      get_magnetic_field parse_json net2 = get_magnetic_field parse_json net) ∧
    (∀ c : String, net 0 = .transport_failure c →
      get_magnetic_field parse_json net = .network_error c ∧
      ∀ parse2 : String → Option Json,
        get_magnetic_field parse2 net = get_magnetic_field parse_json net) ∧
    (∀ (status : Nat) (body : String), net 0 = .response status body →
      400 ≤ status → status < 600 →
      get_magnetic_field parse_json net = .network_error ("HTTPError " ++ toString status) ∧
      ∀ parse2 : String → Option Json,
        get_magnetic_field parse2 net = get_magnetic_field parse_json net) := by
  refine ⟨fun net2 h => ?_, fun c h => ⟨?_, fun parse2 => ?_⟩,
    fun status body h h4 h6 => ⟨?_, fun parse2 => ?_⟩⟩
  · simp only [get_magnetic_field, h]
  · simp only [get_magnetic_field, h]
  · simp only [get_magnetic_field, h]
  · simp only [get_magnetic_field, h]
    rw [if_pos ⟨h4, h6⟩]
  · simp only [get_magnetic_field, h]
    rw [if_pos ⟨h4, h6⟩, if_pos ⟨h4, h6⟩]

/-- Witness for C7: a connection-refused network yields the reported
cause and no result, for a parse behaviour that never succeeds. -/
theorem get_magnetic_field_network_error_witness :
    get_magnetic_field no_parse refused_net = .network_error "ConnectionError" :=
  ((get_magnetic_field_network_error no_parse refused_net).2.1 "ConnectionError" rfl).1

/-- Claim C9: formatting the negation of `toDecimal(24, 33, 35.3454)`
(the southern-hemisphere latitude) yields the string `"24.559818° S"`. -/
theorem format_roundtrip_example :
    (format_lat_lon (lat_decimal_of 24 33 (353454 / 10000) "S") 0).1 = "24.559818° S" := by
  have hL : lat_decimal_of 24 33 (353454 / 10000) "S" = -(147358909 / 6000000) := by
    simp only [lat_decimal_of, dms_to_decimal, if_true]
    norm_num
  rw [hL]
  simp only [format_lat_lon]
  rw [if_neg (by norm_num : ¬ (0 : ℚ) ≤ -(147358909 / 6000000))]
  have habs : py_abs (-(147358909 / 6000000)) = 147358909 / 6000000 := by
    rw [py_abs_of_neg (by norm_num : (-(147358909 / 6000000) : ℚ) < 0)]
    norm_num
  rw [habs, fmt6_of_floor (147358909 / 6000000) 24559818 (by norm_num)]
  rfl

end MagneticField
